import Mathlib

/-!
Shallow embedding of `internal/provider/resource_tfe_data_retention_policy.go`
from `terraform-provider-tfe`.

The Go file implements the `tfe_data_retention_policy` Terraform resource:
Create, Read, Update, Delete and ImportState lifecycle methods that translate
a declared retention-policy configuration into calls against the go-tfe remote
API client.

Embedding conventions:
- Terraform nullable attribute values (`types.String`, `types.Object`, ...)
  become `Option` values; `IsNull` is `Option.isNone` and `ValueString` on a
  null string yields `""` exactly as in the framework.
- The remote go-tfe client is a record of pure functions (`RemoteEnv`), each
  returning `Except String result` (an `error` in Go).  Every lifecycle
  method additionally returns the list of remote calls it issued, in order,
  so that claims about which remote operations run are statable.
- Diagnostics are a list of (summary, detail) pairs; every diagnostic added
  by this resource is an error diagnostic, so `HasError` is non-emptiness.
- `types.Number` attribute values (arbitrary-precision `big.Float` in Go)
  become `ℚ`; `big.Float.Int64` rounds toward zero, embedded as `Int.tdiv`
  on numerator and denominator.
- A Go nil-pointer dereference has no defined result; the one reachable-only-
  under-a-guard dereference (reading `.Days` from a decoded null object) is
  embedded by returning `none` from an `Option`-valued function.
- Helper functions of the repository that are not part of this file
  (`dataOrDefaultOrganization`, `modelFromTFE...`) are modelled from the
  specification and marked as such in their doc comments.
-/

namespace TFE

/-- A single Terraform diagnostic: summary and detail, as produced by
`resp.Diagnostics.AddError(summary, detail)`. All diagnostics emitted by this
resource are error diagnostics. -/
structure Diag where
  summary : String
  detail : String
deriving Repr, DecidableEq

/-- The diagnostics accumulator of a response, in order of emission. -/
abbrev Diagnostics := List Diag

/-- `resp.Diagnostics.HasError()`: in this resource every appended diagnostic
is an error, so the accumulator has an error exactly when it is non-empty. -/
def Diagnostics.hasError (d : Diagnostics) : Bool :=
  !d.isEmpty

/-- `types.String.ValueString()`: the underlying string, or `""` when the
value is null. -/
def valueString (s : Option String) : String :=
  s.getD ""

/-- `modelTFEDeleteOlderThan` (the decoded `delete_older_than` block):
`Days` is a `types.Number`, i.e. an arbitrary-precision number, embedded
as `ℚ`. -/
structure modelTFEDeleteOlderThan where
  Days : ℚ
deriving Repr, DecidableEq

/-- `modelTFEDataRetentionPolicy`: the plan/state model of the resource.
Each attribute is nullable. `DontDelete` is an object block with no
attributes, so its decoded payload is `Unit`. -/
structure modelTFEDataRetentionPolicy where
  ID : Option String
  Organization : Option String
  WorkspaceId : Option String
  DeleteOlderThan : Option modelTFEDeleteOlderThan
  DontDelete : Option Unit
deriving Repr, DecidableEq

/-- The state model with every attribute null: the state an import starts
from before `ImportState` sets any attribute. -/
def emptyModel : modelTFEDataRetentionPolicy :=
  { ID := none, Organization := none, WorkspaceId := none,
    DeleteOlderThan := none, DontDelete := none }

/-- `tfe.DataRetentionPolicyDeleteOlderSetOptions`. -/
structure DataRetentionPolicyDeleteOlderSetOptions where
  DeleteOlderThanNDays : ℤ
deriving Repr, DecidableEq

/-- `tfe.DataRetentionPolicyDontDeleteSetOptions` (no fields). -/
structure DataRetentionPolicyDontDeleteSetOptions where
deriving Repr, DecidableEq

/-- `tfe.DataRetentionPolicyDeleteOlder`: the remote record returned by a
successful delete-older-than set call. -/
structure DataRetentionPolicyDeleteOlder where
  ID : String
  DeleteOlderThanNDays : ℤ
deriving Repr, DecidableEq

/-- `tfe.DataRetentionPolicyDontDelete`: the remote record returned by a
successful don't-delete set call. -/
structure DataRetentionPolicyDontDelete where
  ID : String
deriving Repr, DecidableEq

/-- `tfe.DataRetentionPolicyChoice`: the remote read result, carrying at most
one populated variant payload (both absent means no policy set). -/
structure DataRetentionPolicyChoice where
  DataRetentionPolicyDeleteOlder : Option DataRetentionPolicyDeleteOlder
  DataRetentionPolicyDontDelete : Option DataRetentionPolicyDontDelete
deriving Repr, DecidableEq

/-- One remote API call, identified by operation family (organization- or
workspace-scoped), operation, address and payload.  Recording these in a
trace makes "which remote call was issued" statable. -/
inductive RemoteCall where
  | orgSetDeleteOlder (org : String) (days : ℤ)
  | wsSetDeleteOlder (ws : String) (days : ℤ)
  | orgSetDontDelete (org : String)
  | wsSetDontDelete (ws : String)
  | orgReadChoice (org : String)
  | wsReadChoice (ws : String)
deriving Repr, DecidableEq

/-- The workspace address of a call when it belongs to the workspace-scoped
API family (`r.config.Client.Workspaces....`), `none` for the
organization-scoped family. -/
def RemoteCall.workspaceAddr : RemoteCall → Option String
  | .wsSetDeleteOlder ws _ => some ws
  | .wsSetDontDelete ws => some ws
  | .wsReadChoice ws => some ws
  | _ => none

/-- The behaviour of the configured go-tfe client: each remote operation is a
pure function from its address and options to either an error message or the
remote record. -/
structure RemoteEnv where
  orgSetDeleteOlder : String → DataRetentionPolicyDeleteOlderSetOptions →
    Except String DataRetentionPolicyDeleteOlder
  wsSetDeleteOlder : String → DataRetentionPolicyDeleteOlderSetOptions →
    Except String DataRetentionPolicyDeleteOlder
  orgSetDontDelete : String → DataRetentionPolicyDontDeleteSetOptions →
    Except String DataRetentionPolicyDontDelete
  wsSetDontDelete : String → DataRetentionPolicyDontDeleteSetOptions →
    Except String DataRetentionPolicyDontDelete
  orgReadChoice : String → Except String DataRetentionPolicyChoice
  wsReadChoice : String → Except String DataRetentionPolicyChoice

/-- Whether evaluating a recorded call against the environment succeeds. -/
def RemoteEnv.runOk (env : RemoteEnv) : RemoteCall → Bool
  | .orgSetDeleteOlder a d => (env.orgSetDeleteOlder a ⟨d⟩).toOption.isSome
  | .wsSetDeleteOlder a d => (env.wsSetDeleteOlder a ⟨d⟩).toOption.isSome
  | .orgSetDontDelete a => (env.orgSetDontDelete a ⟨⟩).toOption.isSome
  | .wsSetDontDelete a => (env.wsSetDontDelete a ⟨⟩).toOption.isSome
  | .orgReadChoice a => (env.orgReadChoice a).toOption.isSome
  | .wsReadChoice a => (env.wsReadChoice a).toOption.isSome

/-- `ConfiguredClient`: the provider-level configuration injected into the
resource — the remote client handle and the provider default organization
(null when the provider block sets none). -/
structure ConfiguredClient where
  Client : RemoteEnv
  Organization : Option String

/-- The configuration-error diagnostic produced when no organization is
resolvable. -/
def missingOrganizationDiag : Diag :=
  ⟨"No organization was specified",
   "A organization must be specified on the resource or the provider"⟩

/-- Modelled from the spec: `dataOrDefaultOrganization` is defined elsewhere
in the repository (not under src/); per the spec it resolves the organization
declared on the resource, falling back to the provider default organization,
and "Fails with `ConfigurationError` if neither is available", surfaced
before any remote call. -/
def ConfiguredClient.dataOrDefaultOrganization (c : ConfiguredClient)
    (declared : Option String) : Except Diag String :=
  match declared with
  | some org => .ok org
  | none =>
    match c.Organization with
    | some org => .ok org
    | none => .error missingOrganizationDiag

/-- `math.MaxInt64`. -/
def maxInt64 : ℤ := 9223372036854775807

/-- `math.MinInt64`. -/
def minInt64 : ℤ := -9223372036854775808

/-- The embedding of Go's `big.Float.Int64()` applied to a `types.Number`
attribute value: truncation toward zero (`Int.tdiv` is truncated division),
saturating to `math.MinInt64` for values below it and to `math.MaxInt64` for
values above it; the `Accuracy` result reporting the saturation is discarded
by the source (`deleteOlderThanDays, _ := ...Int64()`). -/
def bigFloatInt64 (q : ℚ) : ℤ :=
  max minInt64 (min maxInt64 (Int.tdiv q.num q.den))

/-- The `Model` shorthand used below. -/
abbrev Model := modelTFEDataRetentionPolicy

/-- Modelled from the spec: `modelFromTFEDataRetentionPolicyDeleteOlder` is
defined elsewhere in the repository (not under src/); per the spec a
successful create must "wrap the remote-assigned identity and the scope into
a `PolicyRecord` and return it for persistence", with the delete-older-than
variant populated from the remote record. -/
def modelFromTFEDataRetentionPolicyDeleteOlder (plan : Model)
    (p : DataRetentionPolicyDeleteOlder) : Model :=
  { ID := some p.ID,
    Organization := plan.Organization,
    WorkspaceId := plan.WorkspaceId,
    DeleteOlderThan := some ⟨(p.DeleteOlderThanNDays : ℚ)⟩,
    DontDelete := none }

/-- Modelled from the spec: `modelFromTFEDataRetentionPolicyDontDelete` is
defined elsewhere in the repository (not under src/); per the spec a
successful create must "wrap the remote-assigned identity and the scope into
a `PolicyRecord` and return it for persistence", with the don't-delete
variant populated. -/
def modelFromTFEDataRetentionPolicyDontDelete (plan : Model)
    (p : DataRetentionPolicyDontDelete) : Model :=
  { ID := some p.ID,
    Organization := plan.Organization,
    WorkspaceId := plan.WorkspaceId,
    DeleteOlderThan := none,
    DontDelete := some () }

/-- Modelled from the spec: `modelFromTFEDataRetentionPolicyChoice` is
defined elsewhere in the repository (not under src/); per the spec the read
result is mapped onto the variants strictly — "only one field of the union is
ever populated at a time; absence of both is mapped to `Absent`", whose
lifecycle handling happens in the surrounding framework. -/
def modelFromTFEDataRetentionPolicyChoice (state : Model)
    (p : DataRetentionPolicyChoice) : Model :=
  match p.DataRetentionPolicyDeleteOlder with
  | some older =>
    { state with ID := some older.ID,
                 DeleteOlderThan := some ⟨(older.DeleteOlderThanNDays : ℚ)⟩,
                 DontDelete := none }
  | none =>
    match p.DataRetentionPolicyDontDelete with
    | some dont =>
      { state with ID := some dont.ID,
                   DeleteOlderThan := none,
                   DontDelete := some () }
    | none => state

/-- A Create/Read/Update/Delete response: the diagnostics accumulator and the
stored state (`resp.State`), `none` when no state record is stored. -/
structure Response where
  diagnostics : Diagnostics
  state : Option Model
deriving Repr, DecidableEq

/-- The resource value: holds the configured client, as the Go struct does. -/
structure resourceTFEDataRetentionPolicy where
  config : ConfiguredClient

namespace resourceTFEDataRetentionPolicy

/-- `createDeleteOlderThanRetentionPolicy`: decode the `delete_older_than`
object from the plan (a null object decodes to a nil pointer, whose `.Days`
dereference has no defined result, embedded as `none`), truncate the declared
days toward zero into the set options, issue the organization- or
workspace-scoped set call, surface a remote error without touching state, and
on success store the mapped result model. -/
def createDeleteOlderThanRetentionPolicy (r : resourceTFEDataRetentionPolicy)
    (plan : Model) (resp : Response) : Option (Response × List RemoteCall) :=
  match plan.DeleteOlderThan with
  | none => none
  | some deleteOlderThan =>
    let deleteOlderThanDays := bigFloatInt64 deleteOlderThan.Days
    let options : DataRetentionPolicyDeleteOlderSetOptions :=
      { DeleteOlderThanNDays := deleteOlderThanDays }
    let call : RemoteCall :=
      if plan.WorkspaceId.isNone then
        .orgSetDeleteOlder (valueString plan.Organization)
          options.DeleteOlderThanNDays
      else
        .wsSetDeleteOlder (valueString plan.WorkspaceId)
          options.DeleteOlderThanNDays
    let result : Except String DataRetentionPolicyDeleteOlder :=
      if plan.WorkspaceId.isNone then
        r.config.Client.orgSetDeleteOlder (valueString plan.Organization)
          options
      else
        r.config.Client.wsSetDeleteOlder (valueString plan.WorkspaceId)
          options
    match result with
    | .error e =>
      some ({ resp with diagnostics := resp.diagnostics ++
                [⟨"Unable to create data retention policy", e⟩] },
            [call])
    | .ok dataRetentionPolicy =>
      let modelResult :=
        modelFromTFEDataRetentionPolicyDeleteOlder plan dataRetentionPolicy
      some ({ resp with state := some modelResult }, [call])

/-- `createDontDeleteRetentionPolicy`: the source decodes the
`delete_older_than` object here too and discards it (a null object decodes to
a nil pointer without error, and the decoded value is never used); it then
issues the organization- or workspace-scoped don't-delete set call with empty
options, surfaces a remote error without touching state, and on success
stores the mapped result model. -/
def createDontDeleteRetentionPolicy (r : resourceTFEDataRetentionPolicy)
    (plan : Model) (resp : Response) : Response × List RemoteCall :=
  let _deleteOlderThan := plan.DeleteOlderThan
  let options : DataRetentionPolicyDontDeleteSetOptions := {}
  let call : RemoteCall :=
    if plan.WorkspaceId.isNone then
      .orgSetDontDelete (valueString plan.Organization)
    else
      .wsSetDontDelete (valueString plan.WorkspaceId)
  let result : Except String DataRetentionPolicyDontDelete :=
    if plan.WorkspaceId.isNone then
      r.config.Client.orgSetDontDelete (valueString plan.Organization)
        options
    else
      r.config.Client.wsSetDontDelete (valueString plan.WorkspaceId)
        options
  match result with
  | .error e =>
    ({ resp with diagnostics := resp.diagnostics ++
        [⟨"Unable to create data retention policy", e⟩] },
     [call])
  | .ok dataRetentionPolicy =>
    let modelResult :=
      modelFromTFEDataRetentionPolicyDontDelete plan dataRetentionPolicy
    ({ resp with state := some modelResult }, [call])

/-- The variant dispatch at the end of `Create`: call the delete-older-than
helper when the `delete_older_than` block is non-null, otherwise the
don't-delete helper when the `dont_delete` block is non-null, otherwise fall
through and return with no call and no diagnostic. -/
def createDispatch (r : resourceTFEDataRetentionPolicy) (plan : Model)
    (resp : Response) : Option (Response × List RemoteCall) :=
  if !plan.DeleteOlderThan.isNone then
    r.createDeleteOlderThanRetentionPolicy plan resp
  else if !plan.DontDelete.isNone then
    some (r.createDontDeleteRetentionPolicy plan resp)
  else
    some (resp, [])

/-- `Create`: read the plan model (decode diagnostics are part of `resp`'s
accumulator here); when `workspace_id` is null, resolve the organization,
returning its error diagnostic before any remote call when resolution fails,
and write the resolved organization into the plan model; then dispatch on
the non-null variant block. -/
def Create (r : resourceTFEDataRetentionPolicy) (plan : Model)
    (resp : Response) : Option (Response × List RemoteCall) :=
  if resp.diagnostics.hasError then some (resp, [])
  else
    if plan.WorkspaceId.isNone then
      match r.config.dataOrDefaultOrganization plan.Organization with
      | .error d =>
        some ({ resp with diagnostics := resp.diagnostics ++ [d] }, [])
      | .ok organization =>
        r.createDispatch { plan with Organization := some organization } resp
    else
      r.createDispatch plan resp

/-- `Read`: issue the organization- or workspace-scoped read-policy-choice
call for the prior state's scope; surface a remote error without touching
state; on success store the state mapped from the returned choice. -/
def Read (r : resourceTFEDataRetentionPolicy) (state : Model)
    (resp : Response) : Response × List RemoteCall :=
  if resp.diagnostics.hasError then (resp, [])
  else
    let call : RemoteCall :=
      if state.WorkspaceId.isNone then
        .orgReadChoice (valueString state.Organization)
      else
        .wsReadChoice (valueString state.WorkspaceId)
    let result : Except String DataRetentionPolicyChoice :=
      if state.WorkspaceId.isNone then
        r.config.Client.orgReadChoice (valueString state.Organization)
      else
        r.config.Client.wsReadChoice (valueString state.WorkspaceId)
    match result with
    | .error e =>
      ({ resp with diagnostics := resp.diagnostics ++
          [⟨"Failed to read data retention policy", e⟩] },
       [call])
    | .ok policy =>
      let modelResult := modelFromTFEDataRetentionPolicyChoice state policy
      ({ resp with state := some modelResult }, [call])

/-- The request passed to `Update`: prior state, planned state and raw
configuration, all ignored by the implementation. -/
structure UpdateRequest where
  state : Option Model
  plan : Option Model
  config : Option Model
deriving Repr, DecidableEq

/-- The error diagnostic `Update` unconditionally emits. -/
def updateNotSupportedDiag : Diag :=
  ⟨"Update not supported",
   "The update operation is not supported on this resource. " ++
   "This is a bug in the provider."⟩

/-- `Update`: unconditionally add the unsupported-operation error; the
request is never inspected, no remote call is issued and state is not
written. -/
def Update (_r : resourceTFEDataRetentionPolicy) (_req : UpdateRequest)
    (resp : Response) : Response × List RemoteCall :=
  ({ resp with diagnostics := resp.diagnostics ++ [updateNotSupportedDiag] },
   [])

/-- The request passed to `Delete`: the prior state, ignored by the
implementation (the whole body is commented out in the source). -/
structure DeleteRequest where
  state : Option Model
deriving Repr, DecidableEq

/-- `Delete`: the body is entirely commented out in the source — no remote
call, no diagnostic, no state write. -/
def Delete (_r : resourceTFEDataRetentionPolicy) (_req : DeleteRequest)
    (resp : Response) : Response × List RemoteCall :=
  (resp, [])

end resourceTFEDataRetentionPolicy

/-- `strings.SplitN(s, sep, 2)` on character lists: `none` when the separator
does not occur, otherwise the segments before and after its first
occurrence. -/
def splitN2Chars (sep : Char) : List Char → Option (List Char × List Char)
  | [] => none
  | c :: cs =>
    if c = sep then some ([], cs)
    else
      match splitN2Chars sep cs with
      | none => none
      | some (a, b) => some (c :: a, b)

/-- `strings.SplitN(s, "/", 2)`: one part when `"/"` does not occur
(including the empty string, which yields `[""]`), otherwise exactly the two
parts around the first `"/"`. -/
def splitN2 (s : String) : List String :=
  match splitN2Chars '/' s.data with
  | none => [s]
  | some (a, b) => [⟨a⟩, ⟨b⟩]

namespace resourceTFEDataRetentionPolicy

/-- `ImportState`: split the import identifier on the first `"/"`; when the
split does not give two parts, add the format-error diagnostic naming the
expected form and return; otherwise set exactly the `organization` and `id`
state attributes. -/
def ImportState (_r : resourceTFEDataRetentionPolicy) (reqID : String)
    (resp : Response) : Response :=
  let s := splitN2 reqID
  if s.length ≠ 2 then
    { resp with diagnostics := resp.diagnostics ++
        [⟨"Error importing variable",
          "Invalid variable import format: " ++ reqID ++
          " (expected <ORGANIZATION>/<KEY ID>)"⟩] }
  else
    let org := s.getD 0 ""
    let id := s.getD 1 ""
    let st := resp.state.getD emptyModel
    let st := { st with Organization := some org, ID := some id }
    { resp with state := some st }

end resourceTFEDataRetentionPolicy

/-! ### Concrete sample values for witnesses and counterexamples -/

/-- A remote environment in which every call succeeds, echoing the options
back. -/
def sampleRemote : RemoteEnv :=
  { orgSetDeleteOlder := fun _ o => .ok ⟨"drp-1", o.DeleteOlderThanNDays⟩,
    wsSetDeleteOlder := fun _ o => .ok ⟨"drp-2", o.DeleteOlderThanNDays⟩,
    orgSetDontDelete := fun _ _ => .ok ⟨"drp-3"⟩,
    wsSetDontDelete := fun _ _ => .ok ⟨"drp-4"⟩,
    orgReadChoice := fun _ => .ok ⟨none, none⟩,
    wsReadChoice := fun _ => .ok ⟨none, none⟩ }

/-- A remote environment in which every call fails. -/
def failRemote : RemoteEnv :=
  { orgSetDeleteOlder := fun _ _ => .error "remote failure",
    wsSetDeleteOlder := fun _ _ => .error "remote failure",
    orgSetDontDelete := fun _ _ => .error "remote failure",
    wsSetDontDelete := fun _ _ => .error "remote failure",
    orgReadChoice := fun _ => .error "remote failure",
    wsReadChoice := fun _ => .error "remote failure" }

/-- A resource configured with the always-succeeding client and a provider
default organization. -/
def sampleR : resourceTFEDataRetentionPolicy :=
  ⟨⟨sampleRemote, some "default-org"⟩⟩

/-- A resource configured with the always-failing client. -/
def failR : resourceTFEDataRetentionPolicy :=
  ⟨⟨failRemote, some "default-org"⟩⟩

/-- A response with no diagnostics and no stored state. -/
def emptyResponse : Response := ⟨[], none⟩

/-- A plan with a workspace id and neither variant block set. -/
def planNeither : Model :=
  { ID := none, Organization := some "acme", WorkspaceId := some "ws-1",
    DeleteOlderThan := none, DontDelete := none }

/-- A workspace-scoped plan declaring the don't-delete variant. -/
def planDont : Model :=
  { ID := none, Organization := none, WorkspaceId := some "ws-1",
    DeleteOlderThan := none, DontDelete := some () }

/-- A workspace-scoped plan declaring delete-older-than with fractional
days. -/
def planDays : Model :=
  { ID := none, Organization := none, WorkspaceId := some "ws-1",
    DeleteOlderThan := some ⟨307/10⟩, DontDelete := none }

/-- An organization-scoped plan declaring delete-older-than 30 days. -/
def planDaysOrg : Model :=
  { ID := none, Organization := some "acme", WorkspaceId := none,
    DeleteOlderThan := some ⟨30⟩, DontDelete := none }

/-- A resource whose provider configuration carries no default
organization. -/
def noOrgR : resourceTFEDataRetentionPolicy :=
  ⟨⟨sampleRemote, none⟩⟩

/-- A plan with neither a workspace id nor an organization. -/
def planNoOrg : Model :=
  { ID := none, Organization := none, WorkspaceId := none,
    DeleteOlderThan := none, DontDelete := some () }

/-- A workspace-scoped plan declaring delete-older-than 10^19 days, above
`math.MaxInt64`. -/
def planHugeDays : Model :=
  { ID := none, Organization := none, WorkspaceId := some "ws-1",
    DeleteOlderThan := some ⟨10000000000000000000⟩, DontDelete := none }

/-! ### Claim theorems -/

open resourceTFEDataRetentionPolicy

/-- Helper: whenever the delete-older-than create helper returns (it does not
hit the nil-pointer dereference), it has issued exactly one remote call. -/
theorem createDeleteOlderThan_trace_one
    (r : resourceTFEDataRetentionPolicy) (plan : Model) (resp : Response) :
    ∀ out, createDeleteOlderThanRetentionPolicy r plan resp = some out →
      out.2.length = 1 := by
  intro out h
  unfold createDeleteOlderThanRetentionPolicy at h
  rcases hd : plan.DeleteOlderThan with _ | d
  · rw [hd] at h
    exact absurd h (by simp)
  · rw [hd] at h
    dsimp only at h
    split at h
    · cases h
      rfl
    · cases h
      rfl

/-- Helper: the don't-delete create helper always issues exactly one remote
call. -/
theorem createDontDelete_trace_one
    (r : resourceTFEDataRetentionPolicy) (plan : Model) (resp : Response) :
    (createDontDeleteRetentionPolicy r plan resp).2.length = 1 := by
  unfold createDontDeleteRetentionPolicy
  dsimp only
  split
  · rfl
  · rfl

/-- Helper: the variant dispatch issues at most one remote call. -/
theorem createDispatch_trace_le_one
    (r : resourceTFEDataRetentionPolicy) (plan : Model) (resp : Response) :
    ∀ out, createDispatch r plan resp = some out → out.2.length ≤ 1 := by
  intro out h
  unfold createDispatch at h
  split at h
  · exact Nat.le_of_eq (createDeleteOlderThan_trace_one r plan resp out h)
  · split at h
    · cases h
      exact Nat.le_of_eq (createDontDelete_trace_one r plan resp)
    · cases h
      exact Nat.zero_le 1

/-- Helper: when neither variant block is set, the variant dispatch is the
silent fall-through — no remote call, no diagnostic, no state change. -/
theorem createDispatch_neither
    (r : resourceTFEDataRetentionPolicy) (plan : Model) (resp : Response)
    (hDel : plan.DeleteOlderThan = none) (hDont : plan.DontDelete = none) :
    createDispatch r plan resp = some (resp, []) := by
  simp [createDispatch, hDel, hDont]

/-- C1 counterexample: with a concrete plan in which neither variant block is
set, `Create` completes without adding any error diagnostic and without
issuing any remote call — the neither-set case is silently ignored, contrary
to the claim. -/
theorem create_neither_variant_silently_ignored :
    Create sampleR planNeither emptyResponse = some (emptyResponse, []) ∧
    Diagnostics.hasError emptyResponse.diagnostics = false :=
  ⟨rfl, rfl⟩

/-- C1 (amended): for every plan, `Create` issues at most one remote call —
in particular it never issues both set operations; and when neither the
`delete_older_than` nor the `dont_delete` block is set, `Create` issues no
remote call at all, completing without any error whenever scope resolution
succeeds (for instance whenever `workspace_id` is set). The neither-set case
is excluded upstream by the schema's `ExactlyOneOf` validators rather than
handled in `Create`. -/
theorem create_at_most_one_set_call
    (r : resourceTFEDataRetentionPolicy) (plan : Model) (resp : Response)
    (h : resp.diagnostics = []) :
    (∀ out, Create r plan resp = some out → out.2.length ≤ 1) ∧
    (plan.DeleteOlderThan = none → plan.DontDelete = none →
      (∃ respOut, Create r plan resp = some (respOut, [])) ∧
      (plan.WorkspaceId.isSome → Create r plan resp = some (resp, []))) := by
  have hne : Diagnostics.hasError resp.diagnostics = false := by
    simp [Diagnostics.hasError, h]
  constructor
  · intro out hout
    unfold Create at hout
    rw [hne] at hout
    simp only [Bool.false_eq_true, if_false] at hout
    split at hout
    · split at hout
      · cases hout
        exact Nat.zero_le 1
      · exact createDispatch_trace_le_one r _ resp out hout
    · exact createDispatch_trace_le_one r plan resp out hout
  · intro hDel hDont
    have hmain : ∃ respOut, Create r plan resp = some (respOut, []) ∧
        (plan.WorkspaceId.isSome → respOut = resp) := by
      unfold Create
      rw [hne]
      simp only [Bool.false_eq_true, if_false]
      rcases hw : plan.WorkspaceId with _ | w
      · simp only [hw, Option.isNone_none, if_true]
        rcases hres : r.config.dataOrDefaultOrganization plan.Organization
          with d | org
        · exact ⟨_, rfl, by simp [hw]⟩
        · refine ⟨resp, ?_, fun _ => rfl⟩
          exact createDispatch_neither r _ resp hDel hDont
      · simp only [hw, Option.isNone_some, Bool.false_eq_true, if_false]
        refine ⟨resp, ?_, fun _ => rfl⟩
        exact createDispatch_neither r plan resp hDel hDont
    rcases hmain with ⟨respOut, hout, hws⟩
    exact ⟨⟨respOut, hout⟩, fun hsome => by rw [hout, hws hsome]⟩

/-- Witness for C1's amended theorem at concrete inputs. -/
theorem create_at_most_one_set_call_witness :
    (∀ out, Create sampleR planDays emptyResponse = some out →
        out.2.length ≤ 1) ∧
    Create sampleR planNeither emptyResponse = some (emptyResponse, []) := by
  refine ⟨(create_at_most_one_set_call sampleR planDays emptyResponse
    rfl).1, ?_⟩
  exact ((create_at_most_one_set_call sampleR planNeither emptyResponse
    rfl).2 rfl rfl).2 rfl

/-- Helper: on a workspace-scoped plan the delete-older-than helper issues
exactly the workspace-family set call at the workspace id, with the declared
days truncated toward zero. -/
theorem createDeleteOlderThan_ws_call
    (r : resourceTFEDataRetentionPolicy) (plan : Model) (resp : Response)
    (w : String) (d : modelTFEDeleteOlderThan)
    (hw : plan.WorkspaceId = some w) (hd : plan.DeleteOlderThan = some d) :
    ∃ respOut, createDeleteOlderThanRetentionPolicy r plan resp =
      some (respOut, [.wsSetDeleteOlder w (bigFloatInt64 d.Days)]) := by
  unfold createDeleteOlderThanRetentionPolicy
  rw [hd]
  simp only [hw, Option.isNone_some, Bool.false_eq_true, if_false,
    valueString, Option.getD_some]
  split
  · exact ⟨_, rfl⟩
  · exact ⟨_, rfl⟩

/-- Helper: on an organization-scoped plan the delete-older-than helper
issues exactly the organization-family set call at the organization name,
with the declared days truncated toward zero. -/
theorem createDeleteOlderThan_org_call
    (r : resourceTFEDataRetentionPolicy) (plan : Model) (resp : Response)
    (o : String) (d : modelTFEDeleteOlderThan)
    (hw : plan.WorkspaceId = none) (ho : plan.Organization = some o)
    (hd : plan.DeleteOlderThan = some d) :
    ∃ respOut, createDeleteOlderThanRetentionPolicy r plan resp =
      some (respOut, [.orgSetDeleteOlder o (bigFloatInt64 d.Days)]) := by
  unfold createDeleteOlderThanRetentionPolicy
  rw [hd]
  simp only [hw, ho, Option.isNone_none, if_true, valueString,
    Option.getD_some]
  split
  · exact ⟨_, rfl⟩
  · exact ⟨_, rfl⟩

/-- Helper: on a workspace-scoped plan the don't-delete helper issues exactly
the workspace-family don't-delete set call at the workspace id. -/
theorem createDontDelete_ws_call
    (r : resourceTFEDataRetentionPolicy) (plan : Model) (resp : Response)
    (w : String) (hw : plan.WorkspaceId = some w) :
    ∃ respOut, createDontDeleteRetentionPolicy r plan resp =
      (respOut, [.wsSetDontDelete w]) := by
  unfold createDontDeleteRetentionPolicy
  simp only [hw, Option.isNone_some, Bool.false_eq_true, if_false,
    valueString, Option.getD_some]
  split
  · exact ⟨_, rfl⟩
  · exact ⟨_, rfl⟩

/-- Helper: on a workspace-scoped state, `Read` issues exactly the
workspace-family read-policy-choice call at the workspace id. -/
theorem read_ws_call
    (r : resourceTFEDataRetentionPolicy) (state : Model) (rresp : Response)
    (w : String) (hw : state.WorkspaceId = some w)
    (h : rresp.diagnostics = []) :
    ∃ respOut, Read r state rresp = (respOut, [.wsReadChoice w]) := by
  unfold Read
  have hne : Diagnostics.hasError rresp.diagnostics = false := by
    simp [Diagnostics.hasError, h]
  rw [hne]
  simp only [Bool.false_eq_true, if_false, hw, Option.isNone_some,
    valueString, Option.getD_some]
  split
  · exact ⟨_, rfl⟩
  · exact ⟨_, rfl⟩

/-- Helper: on a workspace-scoped plan every call the variant dispatch
issues belongs to the workspace-scoped API family at the workspace id. -/
theorem createDispatch_ws_trace
    (r : resourceTFEDataRetentionPolicy) (plan : Model) (resp : Response)
    (w : String) (hw : plan.WorkspaceId = some w) :
    ∀ out, createDispatch r plan resp = some out →
      ∀ call ∈ out.2, call.workspaceAddr = some w := by
  intro out hout call hc
  rcases hd : plan.DeleteOlderThan with _ | d
  · rcases hdo : plan.DontDelete with _ | u
    · rw [createDispatch_neither r plan resp hd hdo] at hout
      cases hout
      simp at hc
    · rcases createDontDelete_ws_call r plan resp w hw with ⟨o1, hcd⟩
      have hrw : createDispatch r plan resp =
          some (o1, [RemoteCall.wsSetDontDelete w]) := by
        simp [createDispatch, hd, hdo, hcd]
      rw [hrw] at hout
      cases hout
      simp at hc
      subst hc
      rfl
  · rcases createDeleteOlderThan_ws_call r plan resp w d hw hd with ⟨o1, hcd⟩
    have hrw : createDispatch r plan resp =
        some (o1, [RemoteCall.wsSetDeleteOlder w (bigFloatInt64 d.Days)]) := by
      simp [createDispatch, hd, hcd]
    rw [hrw] at hout
    cases hout
    simp at hc
    subst hc
    rfl

/-- Helper: on a workspace-scoped plan the trace of the variant dispatch does
not depend on the organization value. -/
theorem createDispatch_org_irrelevant
    (r : resourceTFEDataRetentionPolicy) (plan : Model) (resp : Response)
    (org : Option String) (w : String) (hw : plan.WorkspaceId = some w) :
    (createDispatch r { plan with Organization := org } resp).map Prod.snd =
      (createDispatch r plan resp).map Prod.snd := by
  rcases hd : plan.DeleteOlderThan with _ | d
  · rcases hdo : plan.DontDelete with _ | u
    · have e1 := createDispatch_neither r plan resp hd hdo
      have e2 := createDispatch_neither r { plan with Organization := org }
        resp (by simp [hd]) (by simp [hdo])
      rw [hd, hdo] at e2
      rw [e1, e2]
    · rcases createDontDelete_ws_call r plan resp w hw with ⟨o1, hc1⟩
      rcases createDontDelete_ws_call r { plan with Organization := org }
        resp w (by simp [hw]) with ⟨o2, hc2⟩
      rw [hd, hdo] at hc2
      simp [createDispatch, hd, hdo, hc1, hc2]
  · rcases createDeleteOlderThan_ws_call r plan resp w d hw hd
      with ⟨o1, hc1⟩
    rcases createDeleteOlderThan_ws_call r { plan with Organization := org }
      resp w d (by simp [hw]) (by simp [hd]) with ⟨o2, hc2⟩
    rw [hd] at hc2
    simp [createDispatch, hd, hc1, hc2]

/-- C2: when `workspace_id` is non-null, `Create` and `Read` address the
remote system exclusively through the workspace-scoped API family at the
workspace id, and the trace of remote calls is unchanged under any change of
the organization value. -/
theorem workspace_scope_addressing
    (r : resourceTFEDataRetentionPolicy) (plan state : Model)
    (resp rresp : Response) (w : String)
    (hplan : plan.WorkspaceId = some w) (hstate : state.WorkspaceId = some w)
    (h1 : resp.diagnostics = []) (h2 : rresp.diagnostics = []) :
    (∀ out, Create r plan resp = some out →
       ∀ call ∈ out.2, call.workspaceAddr = some w) ∧
    (∀ org, (Create r { plan with Organization := org } resp).map Prod.snd =
       (Create r plan resp).map Prod.snd) ∧
    (∀ call ∈ (Read r state rresp).2, call.workspaceAddr = some w) ∧
    (∀ org, (Read r { state with Organization := org } rresp).2 =
       (Read r state rresp).2) := by
  have hne : Diagnostics.hasError resp.diagnostics = false := by
    simp [Diagnostics.hasError, h1]
  have hCreate : ∀ plan2 : Model, plan2.WorkspaceId = some w →
      Create r plan2 resp = createDispatch r plan2 resp := by
    intro plan2 hw2
    unfold Create
    rw [hne]
    simp [hw2]
  refine ⟨?_, ?_, ?_, ?_⟩
  · intro out hout call hc
    rw [hCreate plan hplan] at hout
    exact createDispatch_ws_trace r plan resp w hplan out hout call hc
  · intro org
    rw [hCreate plan hplan,
      hCreate { plan with Organization := org } (by simp [hplan])]
    exact createDispatch_org_irrelevant r plan resp org w hplan
  · intro call hc
    rcases read_ws_call r state rresp w hstate h2 with ⟨respOut, hres⟩
    rw [hres] at hc
    simp at hc
    rw [hc]
    rfl
  · intro org
    rcases read_ws_call r state rresp w hstate h2 with ⟨respOut, hres⟩
    rcases read_ws_call r { state with Organization := org } rresp w
      (by simp [hstate]) h2 with ⟨respOut2, hres2⟩
    rw [hres, hres2]

/-- Witness for C2 at concrete inputs. -/
theorem workspace_scope_addressing_witness :
    (∀ call ∈ (Read sampleR planDays emptyResponse).2,
       call.workspaceAddr = some "ws-1") ∧
    (Create sampleR { planDays with Organization := some "other" }
        emptyResponse).map Prod.snd =
      (Create sampleR planDays emptyResponse).map Prod.snd := by
  have h := workspace_scope_addressing sampleR planDays planDays
    emptyResponse emptyResponse "ws-1" rfl rfl rfl rfl
  exact ⟨h.2.2.1, h.2.1 (some "other")⟩

/-- Helper: when both delete-older-than set operations fail, the
delete-older-than create helper surfaces an error and leaves the stored
state untouched. -/
theorem createDeleteOlderThan_fail
    (r : resourceTFEDataRetentionPolicy) (plan : Model) (resp : Response)
    (horg : ∀ a o, ∃ e, r.config.Client.orgSetDeleteOlder a o = .error e)
    (hws : ∀ a o, ∃ e, r.config.Client.wsSetDeleteOlder a o = .error e) :
    ∀ out, createDeleteOlderThanRetentionPolicy r plan resp = some out →
      out.1.state = resp.state ∧
      Diagnostics.hasError out.1.diagnostics = true := by
  intro out hout
  unfold createDeleteOlderThanRetentionPolicy at hout
  rcases hd : plan.DeleteOlderThan with _ | d
  · rw [hd] at hout
    exact absurd hout (by simp)
  · rw [hd] at hout
    dsimp only at hout
    rcases hw : plan.WorkspaceId with _ | w
    · rcases horg (valueString plan.Organization)
        ⟨bigFloatInt64 d.Days⟩ with ⟨e, he⟩
      rw [hw] at hout
      simp only [Option.isNone_none, if_true] at hout
      rw [he] at hout
      dsimp only at hout
      cases hout
      exact ⟨rfl, by simp [Diagnostics.hasError]⟩
    · rcases hws (valueString plan.WorkspaceId)
        ⟨bigFloatInt64 d.Days⟩ with ⟨e, he⟩
      rw [hw] at hout
      simp only [Option.isNone_some, Bool.false_eq_true, if_false] at hout
      rw [hw] at he
      rw [he] at hout
      dsimp only at hout
      cases hout
      exact ⟨rfl, by simp [Diagnostics.hasError]⟩

/-- Helper: when both don't-delete set operations fail, the don't-delete
create helper surfaces an error and leaves the stored state untouched. -/
theorem createDontDelete_fail
    (r : resourceTFEDataRetentionPolicy) (plan : Model) (resp : Response)
    (horg : ∀ a o, ∃ e, r.config.Client.orgSetDontDelete a o = .error e)
    (hws : ∀ a o, ∃ e, r.config.Client.wsSetDontDelete a o = .error e) :
    (createDontDeleteRetentionPolicy r plan resp).1.state = resp.state ∧
    Diagnostics.hasError
      (createDontDeleteRetentionPolicy r plan resp).1.diagnostics = true := by
  unfold createDontDeleteRetentionPolicy
  dsimp only
  rcases hw : plan.WorkspaceId with _ | w
  · rcases horg (valueString plan.Organization) ⟨⟩ with ⟨e, he⟩
    simp only [Option.isNone_none, if_true]
    rw [he]
    exact ⟨rfl, by simp [Diagnostics.hasError]⟩
  · rcases hws (valueString plan.WorkspaceId) ⟨⟩ with ⟨e, he⟩
    simp only [Option.isNone_some, Bool.false_eq_true, if_false]
    rw [hw] at he
    rw [he]
    exact ⟨rfl, by simp [Diagnostics.hasError]⟩

/-- Helper: when every set operation fails, the variant dispatch leaves the
stored state untouched and surfaces an error whenever it issued a call. -/
theorem createDispatch_fail
    (r : resourceTFEDataRetentionPolicy) (plan : Model) (resp : Response)
    (horg : ∀ a o, ∃ e, r.config.Client.orgSetDeleteOlder a o = .error e)
    (hws : ∀ a o, ∃ e, r.config.Client.wsSetDeleteOlder a o = .error e)
    (horgD : ∀ a o, ∃ e, r.config.Client.orgSetDontDelete a o = .error e)
    (hwsD : ∀ a o, ∃ e, r.config.Client.wsSetDontDelete a o = .error e) :
    ∀ out, createDispatch r plan resp = some out →
      out.1.state = resp.state ∧
      (out.2 ≠ [] → Diagnostics.hasError out.1.diagnostics = true) := by
  intro out hout
  unfold createDispatch at hout
  split at hout
  · rcases createDeleteOlderThan_fail r plan resp horg hws out hout
      with ⟨ha, hb⟩
    exact ⟨ha, fun _ => hb⟩
  · split at hout
    · cases hout
      rcases createDontDelete_fail r plan resp horgD hwsD with ⟨ha, hb⟩
      exact ⟨ha, fun _ => hb⟩
    · cases hout
      exact ⟨rfl, fun hne => absurd rfl hne⟩

/-- Helper: when both read operations fail, `Read` surfaces an error and
leaves the stored state untouched. -/
theorem read_fail
    (r : resourceTFEDataRetentionPolicy) (state : Model) (rresp : Response)
    (h2 : rresp.diagnostics = [])
    (horgR : ∀ a, ∃ e, r.config.Client.orgReadChoice a = .error e)
    (hwsR : ∀ a, ∃ e, r.config.Client.wsReadChoice a = .error e) :
    (Read r state rresp).1.state = rresp.state ∧
    Diagnostics.hasError (Read r state rresp).1.diagnostics = true := by
  have hne : Diagnostics.hasError rresp.diagnostics = false := by
    simp [Diagnostics.hasError, h2]
  unfold Read
  rw [hne]
  simp only [Bool.false_eq_true, if_false]
  rcases hw : state.WorkspaceId with _ | w
  · rcases horgR (valueString state.Organization) with ⟨e, he⟩
    simp only [Option.isNone_none, if_true]
    rw [he]
    exact ⟨rfl, by simp [Diagnostics.hasError]⟩
  · rcases hwsR (valueString state.WorkspaceId) with ⟨e, he⟩
    simp only [Option.isNone_some, Bool.false_eq_true, if_false]
    rw [hw] at he
    rw [he]
    exact ⟨rfl, by simp [Diagnostics.hasError]⟩

/-- C3: when every remote operation fails, a create or read invocation
surfaces the error to the caller (whenever it issued a remote call at all)
and persists no state: the stored state after the failed call is exactly the
stored state before it. -/
theorem remote_error_no_partial_state
    (r : resourceTFEDataRetentionPolicy) (plan state : Model)
    (resp rresp : Response)
    (h1 : resp.diagnostics = []) (h2 : rresp.diagnostics = [])
    (hfail : ∀ call, r.config.Client.runOk call = false) :
    (∀ out, Create r plan resp = some out →
       out.1.state = resp.state ∧
       (out.2 ≠ [] → Diagnostics.hasError out.1.diagnostics = true)) ∧
    ((Read r state rresp).1.state = rresp.state ∧
     ((Read r state rresp).2 ≠ [] →
       Diagnostics.hasError (Read r state rresp).1.diagnostics = true)) := by
  have horg : ∀ a o, ∃ e, r.config.Client.orgSetDeleteOlder a o = .error e := by
    intro a o
    have hb : (r.config.Client.orgSetDeleteOlder a o).toOption.isSome
        = false := hfail (.orgSetDeleteOlder a o.DeleteOlderThanNDays)
    rcases hres : r.config.Client.orgSetDeleteOlder a o with e | v
    · exact ⟨e, rfl⟩
    · rw [hres] at hb
      simp [Except.toOption] at hb
  have hws : ∀ a o, ∃ e, r.config.Client.wsSetDeleteOlder a o = .error e := by
    intro a o
    have hb : (r.config.Client.wsSetDeleteOlder a o).toOption.isSome
        = false := hfail (.wsSetDeleteOlder a o.DeleteOlderThanNDays)
    rcases hres : r.config.Client.wsSetDeleteOlder a o with e | v
    · exact ⟨e, rfl⟩
    · rw [hres] at hb
      simp [Except.toOption] at hb
  have horgD : ∀ a o, ∃ e, r.config.Client.orgSetDontDelete a o = .error e := by
    intro a o
    have hb : (r.config.Client.orgSetDontDelete a o).toOption.isSome
        = false := hfail (.orgSetDontDelete a)
    rcases hres : r.config.Client.orgSetDontDelete a o with e | v
    · exact ⟨e, rfl⟩
    · rw [hres] at hb
      simp [Except.toOption] at hb
  have hwsD : ∀ a o, ∃ e, r.config.Client.wsSetDontDelete a o = .error e := by
    intro a o
    have hb : (r.config.Client.wsSetDontDelete a o).toOption.isSome
        = false := hfail (.wsSetDontDelete a)
    rcases hres : r.config.Client.wsSetDontDelete a o with e | v
    · exact ⟨e, rfl⟩
    · rw [hres] at hb
      simp [Except.toOption] at hb
  have horgR : ∀ a, ∃ e, r.config.Client.orgReadChoice a = .error e := by
    intro a
    have hb : (r.config.Client.orgReadChoice a).toOption.isSome
        = false := hfail (.orgReadChoice a)
    rcases hres : r.config.Client.orgReadChoice a with e | v
    · exact ⟨e, rfl⟩
    · rw [hres] at hb
      simp [Except.toOption] at hb
  have hwsR : ∀ a, ∃ e, r.config.Client.wsReadChoice a = .error e := by
    intro a
    have hb : (r.config.Client.wsReadChoice a).toOption.isSome
        = false := hfail (.wsReadChoice a)
    rcases hres : r.config.Client.wsReadChoice a with e | v
    · exact ⟨e, rfl⟩
    · rw [hres] at hb
      simp [Except.toOption] at hb
  constructor
  · intro out hout
    have hne : Diagnostics.hasError resp.diagnostics = false := by
      simp [Diagnostics.hasError, h1]
    unfold Create at hout
    rw [hne] at hout
    simp only [Bool.false_eq_true, if_false] at hout
    split at hout
    · split at hout
      · cases hout
        exact ⟨rfl, fun hne2 => absurd rfl hne2⟩
      · exact createDispatch_fail r _ resp horg hws horgD hwsD out hout
    · exact createDispatch_fail r plan resp horg hws horgD hwsD out hout
  · rcases read_fail r state rresp h2 horgR hwsR with ⟨ha, hb⟩
    exact ⟨ha, fun _ => hb⟩

/-- Witness for C3 at concrete inputs: the always-failing client. -/
theorem remote_error_no_partial_state_witness :
    (∀ out, Create failR planDays emptyResponse = some out →
       out.1.state = emptyResponse.state ∧
       (out.2 ≠ [] → Diagnostics.hasError out.1.diagnostics = true)) ∧
    ((Read failR planDaysOrg emptyResponse).1.state = emptyResponse.state ∧
     ((Read failR planDaysOrg emptyResponse).2 ≠ [] →
       Diagnostics.hasError
         (Read failR planDaysOrg emptyResponse).1.diagnostics = true)) :=
  remote_error_no_partial_state failR planDays planDaysOrg emptyResponse
    emptyResponse rfl rfl (fun call => by cases call <;> rfl)

/-- C4: every update invocation fails with the same unsupported-operation
error regardless of the request's state, plan or configuration; no remote
call is issued and the stored state is untouched. -/
theorem update_unconditional_failure
    (r : resourceTFEDataRetentionPolicy) (req req2 : UpdateRequest)
    (resp : Response) :
    Update r req resp = Update r req2 resp ∧
    (Update r req resp).2 = [] ∧
    (Update r req resp).1.state = resp.state ∧
    (Update r req resp).1.diagnostics =
      resp.diagnostics ++ [updateNotSupportedDiag] ∧
    Diagnostics.hasError (Update r req resp).1.diagnostics = true := by
  refine ⟨rfl, rfl, rfl, rfl, ?_⟩
  simp [Update, Diagnostics.hasError]

/-- C7: the delete operation issues no remote call, adds no diagnostic and
leaves the stored state exactly as it was, for every request and prior
response. -/
theorem delete_is_noop
    (r : resourceTFEDataRetentionPolicy) (req : DeleteRequest)
    (resp : Response) :
    (Delete r req resp).2 = [] ∧
    (Delete r req resp).1.diagnostics = resp.diagnostics ∧
    (Delete r req resp).1.state = resp.state ∧
    Delete r req resp = (resp, []) :=
  ⟨rfl, rfl, rfl, rfl⟩

/-- C9: on the don't-delete create branch the decoded `delete_older_than`
sub-object has no influence: two plans with `dont_delete` set that differ
only in the contents of the `delete_older_than` block produce identical
results — the same remote call with the same empty options, the same
diagnostics and the same stored state. -/
theorem dontDelete_branch_ignores_deleteOlderThan
    (r : resourceTFEDataRetentionPolicy) (plan : Model) (resp : Response)
    (d1 d2 : Option modelTFEDeleteOlderThan)
    (_hdont : plan.DontDelete = some ()) :
    createDontDeleteRetentionPolicy r { plan with DeleteOlderThan := d1 }
        resp =
      createDontDeleteRetentionPolicy r { plan with DeleteOlderThan := d2 }
        resp :=
  rfl

/-- Helper: when the separator does not occur, the two-way split finds
nothing. -/
theorem splitN2Chars_of_not_mem (sep : Char) :
    ∀ l : List Char, sep ∉ l → splitN2Chars sep l = none := by
  intro l
  induction l with
  | nil => intro _; rfl
  | cons c cs ih =>
    intro h
    rw [List.mem_cons] at h
    push_neg at h
    unfold splitN2Chars
    rw [if_neg (fun hc => h.1 hc.symm), ih h.2]

/-- Helper: when the separator first occurs between `a` and `b`, the two-way
split yields exactly `(a, b)`. -/
theorem splitN2Chars_append (sep : Char) :
    ∀ a b : List Char, sep ∉ a →
      splitN2Chars sep (a ++ sep :: b) = some (a, b) := by
  intro a
  induction a with
  | nil =>
    intro b _
    simp [splitN2Chars]
  | cons c cs ih =>
    intro b h
    rw [List.mem_cons] at h
    push_neg at h
    rw [List.cons_append]
    unfold splitN2Chars
    rw [if_neg (fun hc => h.1 hc.symm), ih b h.2]

/-- Helper: `splitN2` on a string whose first `'/'` separates `a` from `b`
yields exactly the two parts. -/
theorem splitN2_eq_two (s a b : String)
    (hs : s.data = a.data ++ '/' :: b.data) (ha : '/' ∉ a.data) :
    splitN2 s = [a, b] := by
  unfold splitN2
  rw [hs, splitN2Chars_append '/' a.data b.data ha]

/-- Helper: `splitN2` on a slash-free string yields one part. -/
theorem splitN2_no_sep (s : String) (h : '/' ∉ s.data) :
    splitN2 s = [s] := by
  unfold splitN2
  rw [splitN2Chars_of_not_mem '/' s.data h]

/-- C5: the import identifier is split on the first `'/'` only — the segment
before it becomes the organization and the entire remainder (further slashes
included) becomes the id; an identifier without `'/'` fails with the format
error naming the expected `<ORGANIZATION>/<KEY ID>` form, writing no
state. -/
theorem import_identifier_split
    (r : resourceTFEDataRetentionPolicy) (s a b : String) (resp : Response)
    (hd : resp.diagnostics = []) :
    (s.data = a.data ++ '/' :: b.data → '/' ∉ a.data →
      (ImportState r s resp).diagnostics = [] ∧
      ∃ st, (ImportState r s resp).state = some st ∧
        st.Organization = some a ∧ st.ID = some b) ∧
    ('/' ∉ s.data →
      (ImportState r s resp).state = resp.state ∧
      (ImportState r s resp).diagnostics =
        [⟨"Error importing variable",
          "Invalid variable import format: " ++ s ++
          " (expected <ORGANIZATION>/<KEY ID>)"⟩]) := by
  constructor
  · intro hs ha
    have hsp := splitN2_eq_two s a b hs ha
    constructor
    · simp [ImportState, hsp, hd]
    · refine ⟨({ resp.state.getD emptyModel with
        Organization := some a, ID := some b }), ?_, rfl, rfl⟩
      simp [ImportState, hsp]
  · intro hnos
    have hsp := splitN2_no_sep s hnos
    constructor
    · simp [ImportState, hsp]
    · simp [ImportState, hsp, hd]

/-- Witness for C5 at the three concrete identifiers named by the claim. -/
theorem import_identifier_split_witness :
    ((ImportState sampleR "acme/pol-abc123" emptyResponse).diagnostics = [] ∧
     ∃ st, (ImportState sampleR "acme/pol-abc123" emptyResponse).state =
         some st ∧
       st.Organization = some "acme" ∧ st.ID = some "pol-abc123") ∧
    ((ImportState sampleR "acme/pol/extra" emptyResponse).diagnostics = [] ∧
     ∃ st, (ImportState sampleR "acme/pol/extra" emptyResponse).state =
         some st ∧
       st.Organization = some "acme" ∧ st.ID = some "pol/extra") ∧
    ((ImportState sampleR "no-slash-here" emptyResponse).state =
       emptyResponse.state ∧
     (ImportState sampleR "no-slash-here" emptyResponse).diagnostics =
       [⟨"Error importing variable",
         "Invalid variable import format: " ++ "no-slash-here" ++
         " (expected <ORGANIZATION>/<KEY ID>)"⟩]) := by
  refine ⟨?_, ?_, ?_⟩
  · exact (import_identifier_split sampleR "acme/pol-abc123" "acme"
      "pol-abc123" emptyResponse rfl).1 (by decide) (by decide)
  · exact (import_identifier_split sampleR "acme/pol/extra" "acme"
      "pol/extra" emptyResponse rfl).1 (by decide) (by decide)
  · exact (import_identifier_split sampleR "no-slash-here" "a" "b"
      emptyResponse rfl).2 (by decide)

/-- C10: an accepted import identifier produces a state with exactly the
organization and id attributes set — workspace id and both variant blocks
are left unset, so import always yields an organization-scoped record. -/
theorem import_writes_only_org_and_id
    (r : resourceTFEDataRetentionPolicy) (s a b : String) (resp : Response)
    (hresp : resp = ⟨[], none⟩)
    (hs : s.data = a.data ++ '/' :: b.data) (ha : '/' ∉ a.data) :
    ImportState r s resp =
      ⟨[], some ⟨some b, some a, none, none, none⟩⟩ := by
  subst hresp
  have hsp := splitN2_eq_two s a b hs ha
  simp [ImportState, hsp, emptyModel]

/-- Witness for C10 at a concrete identifier. -/
theorem import_writes_only_org_and_id_witness :
    ImportState sampleR "acme/pol-abc123" ⟨[], none⟩ =
      ⟨[], some ⟨some "pol-abc123", some "acme", none, none, none⟩⟩ :=
  import_writes_only_org_and_id sampleR "acme/pol-abc123" "acme"
    "pol-abc123" ⟨[], none⟩ rfl (by decide) (by decide)

/-- C6 counterexample: with declared days `10^19` the program passes the
saturated value `math.MaxInt64 = 9223372036854775807` to the remote set
call, while the integer conversion rounding toward zero of the declared
value is `10^19` itself — so the value passed is not the pure
rounding-toward-zero conversion of the declared numeric value. -/
theorem days_conversion_not_pure_truncation :
    (∃ respOut, Create sampleR planHugeDays emptyResponse =
       some (respOut,
         [.wsSetDeleteOlder "ws-1" (9223372036854775807 : ℤ)])) ∧
    Int.tdiv ((10000000000000000000 : ℚ)).num
        ((10000000000000000000 : ℚ)).den =
      (10000000000000000000 : ℤ) ∧
    (9223372036854775807 : ℤ) ≠ (10000000000000000000 : ℤ) := by
  refine ⟨?_, by decide, by decide⟩
  rcases createDeleteOlderThan_ws_call sampleR planHugeDays emptyResponse
    "ws-1" ⟨10000000000000000000⟩ rfl rfl with ⟨respOut, hc⟩
  have e : bigFloatInt64
      (modelTFEDeleteOlderThan.Days ⟨10000000000000000000⟩) =
      (9223372036854775807 : ℤ) := by decide
  rw [e] at hc
  refine ⟨respOut, ?_⟩
  rw [show Create sampleR planHugeDays emptyResponse =
    createDeleteOlderThanRetentionPolicy sampleR planHugeDays emptyResponse
    from rfl]
  exact hc

/-- C6 (amended): on the delete-older-than branch the value passed to the
remote set call is the int64 saturation of the integer conversion, rounding
toward zero, of the declared days value, on both the workspace- and the
organization-scoped paths. Within the int64 range the conversion is exactly
truncation toward zero — `30` converts to `30`, and `30.7` and `-30.7`
truncate toward zero to `30` and `-30` — and the conversion rejects
nothing: fractional values are truncated and out-of-range values such as
`10^19` are silently saturated to the int64 bound, the call still being
issued. -/
theorem days_saturating_truncation
    (r : resourceTFEDataRetentionPolicy) (planW planO : Model)
    (resp : Response) (d dO : modelTFEDeleteOlderThan) (w o : String)
    (hdW : planW.DeleteOlderThan = some d) (hw : planW.WorkspaceId = some w)
    (hdO : planO.DeleteOlderThan = some dO) (ho : planO.WorkspaceId = none)
    (horg : planO.Organization = some o) (h1 : resp.diagnostics = []) :
    (∃ respOut, Create r planW resp =
       some (respOut, [.wsSetDeleteOlder w (bigFloatInt64 d.Days)])) ∧
    (∃ respOut, Create r planO resp =
       some (respOut, [.orgSetDeleteOlder o (bigFloatInt64 dO.Days)])) ∧
    (∀ q : ℚ, minInt64 ≤ Int.tdiv q.num q.den →
      Int.tdiv q.num q.den ≤ maxInt64 →
      bigFloatInt64 q = Int.tdiv q.num q.den) ∧
    bigFloatInt64 30 = 30 ∧
    bigFloatInt64 (307/10 : ℚ) = 30 ∧
    bigFloatInt64 (-307/10 : ℚ) = -30 ∧
    bigFloatInt64 (10000000000000000000 : ℚ) = maxInt64 := by
  have hne : Diagnostics.hasError resp.diagnostics = false := by
    simp [Diagnostics.hasError, h1]
  refine ⟨?_, ?_, ?_, by decide, ?_, ?_, by decide⟩
  · rcases createDeleteOlderThan_ws_call r planW resp w d hw hdW
      with ⟨respOut, hc⟩
    refine ⟨respOut, ?_⟩
    unfold Create
    rw [hne]
    simp [hw, createDispatch, hdW, hc]
  · rcases createDeleteOlderThan_org_call r
      { planO with Organization := some o } resp o dO (by simp [ho]) rfl
      (by simp [hdO]) with ⟨respOut, hc⟩
    refine ⟨respOut, ?_⟩
    have hres : r.config.dataOrDefaultOrganization planO.Organization =
        .ok o := by
      simp [ConfiguredClient.dataOrDefaultOrganization, horg]
    unfold Create
    rw [hne]
    simp only [Bool.false_eq_true, if_false, ho, Option.isNone_none,
      if_true]
    rw [hres]
    rw [ho, hdO] at hc
    simp [createDispatch, hdO, hc]
  · intro q hlo hhi
    unfold bigFloatInt64
    rw [min_eq_right hhi, max_eq_right hlo]
  · have h1 : ((307/10 : ℚ)).num = 307 := by norm_num
    have h2 : ((307/10 : ℚ)).den = 10 := by norm_num
    unfold bigFloatInt64
    rw [h1, h2]
    decide
  · have h1 : ((-307/10 : ℚ)).num = -307 := by norm_num
    have h2 : ((-307/10 : ℚ)).den = 10 := by norm_num
    unfold bigFloatInt64
    rw [h1, h2]
    decide

/-- Witness for C6's amended theorem at concrete plans: fractional 30.7 days
on the workspace path truncates to 30; integral 30 days on the organization
path converts to 30. -/
theorem days_saturating_truncation_witness :
    (∃ respOut, Create sampleR planDays emptyResponse =
       some (respOut, [.wsSetDeleteOlder "ws-1" 30])) ∧
    (∃ respOut, Create sampleR planDaysOrg emptyResponse =
       some (respOut, [.orgSetDeleteOlder "acme" 30])) := by
  have h := days_saturating_truncation sampleR planDays planDaysOrg
    emptyResponse ⟨307/10⟩ ⟨30⟩ "ws-1" "acme" rfl rfl rfl rfl rfl rfl
  rcases h with ⟨⟨r1, hr1⟩, ⟨r2, hr2⟩, _, h30, h307, _, _⟩
  have e1 : bigFloatInt64 (modelTFEDeleteOlderThan.Days ⟨307/10⟩) = 30 :=
    h307
  have e2 : bigFloatInt64 (modelTFEDeleteOlderThan.Days ⟨30⟩) = 30 := h30
  rw [e1] at hr1
  rw [e2] at hr2
  exact ⟨⟨r1, hr1⟩, ⟨r2, hr2⟩⟩

/-- C8: when `workspace_id` is null and neither a declared nor a provider
default organization is available, `Create` fails with the configuration
error before issuing any remote call; when an organization is resolvable,
the resolved organization is written into the plan model before the variant
dispatch runs. -/
theorem create_org_resolution
    (r : resourceTFEDataRetentionPolicy) (plan : Model) (resp : Response)
    (hw : plan.WorkspaceId = none) (h1 : resp.diagnostics = []) :
    (plan.Organization = none → r.config.Organization = none →
      Create r plan resp =
        some ({ resp with diagnostics :=
          resp.diagnostics ++ [missingOrganizationDiag] }, [])) ∧
    (∀ org, r.config.dataOrDefaultOrganization plan.Organization = .ok org →
      Create r plan resp =
        createDispatch r { plan with Organization := some org } resp) := by
  have hne : Diagnostics.hasError resp.diagnostics = false := by
    simp [Diagnostics.hasError, h1]
  constructor
  · intro ho hc
    have herr : r.config.dataOrDefaultOrganization plan.Organization =
        .error missingOrganizationDiag := by
      simp [ConfiguredClient.dataOrDefaultOrganization, ho, hc]
    unfold Create
    rw [hne]
    simp only [Bool.false_eq_true, if_false, hw, Option.isNone_none,
      if_true]
    rw [herr]
  · intro org horg
    unfold Create
    rw [hne]
    simp only [Bool.false_eq_true, if_false, hw, Option.isNone_none,
      if_true]
    rw [horg]

/-- Witness for C8 at concrete inputs. -/
theorem create_org_resolution_witness :
    Create noOrgR planNoOrg emptyResponse =
      some ({ emptyResponse with diagnostics :=
        emptyResponse.diagnostics ++ [missingOrganizationDiag] }, []) ∧
    Create sampleR planDaysOrg emptyResponse =
      createDispatch sampleR { planDaysOrg with Organization := some "acme" }
        emptyResponse := by
  constructor
  · exact (create_org_resolution noOrgR planNoOrg emptyResponse rfl rfl).1
      rfl rfl
  · exact (create_org_resolution sampleR planDaysOrg emptyResponse rfl
      rfl).2 "acme" rfl

/-- Witness for C9 at concrete inputs. -/
theorem dontDelete_branch_ignores_deleteOlderThan_witness :
    createDontDeleteRetentionPolicy sampleR
        { planDont with DeleteOlderThan := some ⟨5⟩ } emptyResponse =
      createDontDeleteRetentionPolicy sampleR
        { planDont with DeleteOlderThan := none } emptyResponse :=
  dontDelete_branch_ignores_deleteOlderThan sampleR planDont emptyResponse
    (some ⟨5⟩) none rfl

end TFE
